import Mathlib

/-!
# Feed controller of the social-media backend

A shallow embedding of `controllers/feed.js` together with the Mongoose models
`models/user.js` and `models/comment.js`.  The three collections are kept in one
explicit `Store`; every handler is a pure function from the store and the request
to an `Outcome`: the store afterwards, the socket events emitted, and the reply.

Conventions of the embedding

* An `ObjectId` is a natural number.  A route parameter (`req.params.postId`,
  `req.params.commentId`) is an `Option ObjectId`: `none` stands for a string that
  Mongoose cannot cast to an ObjectId (the query then raises a `CastError`).
* `req.userId` is set by the `isAuth` middleware and is an `ObjectId`.
* A freshly constructed document receives its `_id` and its timestamps from the
  environment; they are the arguments `newId` and `now` of the handlers.
* A JavaScript `TypeError` raised by reading a property of `null` inside the
  `try` block is caught by the handler, given `statusCode = 500` and passed to
  `next`.
* `clearImage` only touches the file system and logs its failure; it has no
  effect on the store, the events or the reply and is left out.
-/

namespace Feed

/-! ## Data model -/

/-- Mongo object identifiers. -/
abbrev ObjectId := Nat

/-- User documents, `models/user.js`. -/
structure User where
  _id : ObjectId
  name : String
  email : String
  password : String
  status : String
  posts : List ObjectId
  likes : List ObjectId
  comments : List ObjectId
deriving DecidableEq, Repr

/-- Modelled from the spec: `models/post.js` is not among the sources; the fields are
those of the Post entity of the data model (id, title, content, imageUrl, creator,
likes, comments, createdAt). -/
structure Post where
  _id : ObjectId
  title : String
  content : String
  imageUrl : String
  creator : ObjectId
  likes : List ObjectId
  comments : List ObjectId
  createdAt : Nat
deriving DecidableEq, Repr

/-- The embedded `user` object of a comment, `models/comment.js` lines 10-13. -/
structure CommentUser where
  id : ObjectId
  name : String
deriving DecidableEq, Repr

/-- Comment documents, `models/comment.js`; `timestamps: true` adds the two dates. -/
structure Comment where
  _id : ObjectId
  comment : String
  user : CommentUser
  post : ObjectId
  createdAt : Nat
  updatedAt : Nat
deriving DecidableEq, Repr

/-- The database: one list of documents per collection, in insertion order. -/
structure Store where
  users : List User
  posts : List Post
  comments : List Comment
deriving DecidableEq, Repr

/-! ## Collection primitives (Mongoose / MongoDB) -/

/-- The call `Model.findById(id)`: the document carrying that `_id`, or `null`. -/
def findById {α : Type} (key : α → ObjectId) (id : ObjectId) (docs : List α) : Option α :=
  docs.find? (fun d => key d == id)

/-- The call `doc.save()` on a document that was loaded from the collection: the stored
document with the same `_id` is replaced. -/
def updateOne {α : Type} (key : α → ObjectId) (d : α) : List α → List α
  | [] => []
  | x :: xs => if key x = key d then d :: xs else x :: updateOne key d xs

/-- The call `doc.save()` on a new document: it is appended, unless its `_id` is
already taken (duplicate key error). -/
def insertOne {α : Type} (key : α → ObjectId) (d : α) (docs : List α) : Option (List α) :=
  if (findById key (key d) docs).isSome then none else some (docs ++ [d])

/-- The call `Model.findByIdAndRemove(id)`; `_id` is a unique key, the document carrying
it is gone afterwards. -/
def findByIdAndRemove {α : Type} (key : α → ObjectId) (id : ObjectId) (docs : List α) : List α :=
  docs.filter (fun d => key d != id)

/-- The method `MongooseArray.push`. -/
def push (xs : List ObjectId) (x : ObjectId) : List ObjectId := xs ++ [x]

/-- The method `MongooseArray.pull`: every element equal to `x` is removed. -/
def pull (xs : List ObjectId) (x : ObjectId) : List ObjectId := xs.filter (fun y => y != x)

namespace Store

def findUser (s : Store) (id : ObjectId) : Option User := findById User._id id s.users

def findPost (s : Store) (id : ObjectId) : Option Post := findById Post._id id s.posts

def findComment (s : Store) (id : ObjectId) : Option Comment := findById Comment._id id s.comments

def saveUser (s : Store) (u : User) : Store := { s with users := updateOne User._id u s.users }

def savePost (s : Store) (p : Post) : Store := { s with posts := updateOne Post._id p s.posts }

def saveComment (s : Store) (c : Comment) : Store :=
  { s with comments := updateOne Comment._id c s.comments }

end Store

/-! ## JavaScript numbers, as far as `getPosts` needs them

A JavaScript number is an IEEE 754 double.  The finite doubles are rationals; every
arithmetic operation returns the double nearest to the exact result (ties to even), and an
infinity when the exact result is too large.  The sign of zero is not represented. -/

/-- A JavaScript number: `NaN`, a finite value, or an infinity. -/
inductive JSNum where
  | nan
  | num (q : ℚ)
  | inf (negative : Bool)
deriving DecidableEq

/-- The rational `a / 2 ^ e` for an integer exponent `e`. -/
def scale (a : ℚ) (e : Int) : ℚ :=
  if 0 ≤ e then a / ((2 ^ e.toNat : Nat) : ℚ) else a * ((2 ^ (-e).toNat : Nat) : ℚ)

/-- The exponent `g` with `2 ^ g ≤ a < 2 ^ (g + 1)`, for a positive rational `a`. -/
def floorLog2 (a : ℚ) : Int :=
  let g : Int := (Nat.log2 a.num.natAbs : Int) - (Nat.log2 a.den : Int)
  if 1 ≤ scale a g then g else g - 1

/-- Rounding of a non-negative rational to the nearest natural number, ties to even. -/
def roundHalfEven (t : ℚ) : Nat :=
  let f := t.floor.toNat
  let r := t - f
  if r < 1 / 2 then f else if 1 / 2 < r then f + 1 else if f % 2 = 0 then f else f + 1

/-- The rationals that are doubles: `m * 2 ^ e` with `m < 2 ^ 53` and `-1074 ≤ e`, of
magnitude below `2 ^ 1024`.  The denominator is a power of two up to `2 ^ 1074`, and the
numerator has at most 53 significant bits. -/
def isDouble (q : ℚ) : Prop :=
  2 ^ 1074 % q.den = 0 ∧
  (q.num.natAbs < 2 ^ 53 ∨ q.num.natAbs % 2 ^ (Nat.log2 q.num.natAbs - 52) = 0) ∧
  q.num.natAbs < 2 ^ 1024

instance (q : ℚ) : Decidable (isDouble q) := by
  unfold isDouble
  infer_instance

/-- The double nearest to a rational that is not a double itself: 53 significant bits,
exponent not below -1074, ties to even, and an infinity from `2 ^ 1024` on. -/
def roundInexact (q : ℚ) : JSNum :=
  let a := |q|
  let e := max (floorLog2 a - 52) (-1074)
  let r := scale (roundHalfEven (scale a e)) (-e)
  if ((2 ^ 1024 : Nat) : ℚ) ≤ r then JSNum.inf (decide (q < 0))
  else JSNum.num (if q < 0 then -r else r)

/-- The number that stands for the exact value `q`: `q` itself when it is a double, the
nearest double otherwise. -/
def roundDouble (q : ℚ) : JSNum :=
  if isDouble q then JSNum.num q else roundInexact q

namespace JSNum

/-- Truthiness of a number: `NaN` and `0` are falsy. -/
def truthy : JSNum → Bool
  | nan => false
  | num q => q != 0
  | inf _ => true

/-- The expression `a || b`. -/
def or (a b : JSNum) : JSNum := if a.truthy then a else b

/-- The expression `a - b`. -/
def sub : JSNum → JSNum → JSNum
  | num a, num b => roundDouble (a - b)
  | inf s, num _ => inf s
  | num _, inf s => inf (!s)
  | inf s, inf t => if s = t then nan else inf s
  | _, _ => nan

/-- The expression `a * b`. -/
def mul : JSNum → JSNum → JSNum
  | num a, num b => roundDouble (a * b)
  | inf s, num b => if b = 0 then nan else inf (s != decide (b < 0))
  | num a, inf s => if a = 0 then nan else inf (s != decide (a < 0))
  | inf s, inf t => inf (s != t)
  | _, _ => nan

end JSNum

/-- Line 13: `+req.query.page || 1`; the argument is the value of `+req.query.page`. -/
def currentPage (page : JSNum) : JSNum := JSNum.or page (JSNum.num 1)

/-- Line 19: `(currentPage - 1) * ITEMS_PER_PAGE`; the multiplication turns the text of the
environment variable into a number. -/
def skipOf (ITEMS_PER_PAGE : Nat) (page : JSNum) : JSNum :=
  JSNum.mul (JSNum.sub (currentPage page) (JSNum.num 1)) (roundDouble (ITEMS_PER_PAGE : ℚ))

/-- The cursor option `.skip(k)`: the first `k` documents are left out.  The database
refuses a skip that is not a non-negative integer, and the query raises. -/
def dbSkip {α : Type} (k : JSNum) (docs : List α) : Option (List α) :=
  match k with
  | JSNum.nan => none
  | JSNum.inf _ => none
  | JSNum.num q => if 0 ≤ q ∧ q.den = 1 then some (docs.drop q.num.toNat) else none

/-- The cursor option `.limit(n)`: at most `n` documents, and no limit when `n = 0`. -/
def dbLimit {α : Type} (n : Nat) (docs : List α) : List α :=
  if n = 0 then docs else docs.take n

/-- The cursor option `.sort({ createdAt: -1 })` on posts. -/
def sortPosts (docs : List Post) : List Post :=
  docs.insertionSort (fun a b => b.createdAt ≤ a.createdAt)

/-- The cursor option `.sort({ createdAt: -1 })` on comments. -/
def sortComments (docs : List Comment) : List Comment :=
  docs.insertionSort (fun a b => b.createdAt ≤ a.createdAt)

/-! ## Replies, events and populated documents -/

/-- A post with `creator` populated. -/
structure PostWithCreator where
  doc : Post
  creator : Option User
deriving DecidableEq, Repr

/-- A post with `likes` and `creator` populated; a liker without a user document is
dropped from the populated array. -/
structure PostWithLikes where
  doc : Post
  creator : Option User
  likes : List User
deriving DecidableEq, Repr

/-- The projection `{ id: like._id, name: like.name }`. -/
structure Liker where
  id : ObjectId
  name : String
deriving DecidableEq, Repr

def populateCreator (s : Store) (p : Post) : PostWithCreator :=
  { doc := p, creator := s.findUser p.creator }

def populateLikes (s : Store) (p : Post) : PostWithLikes :=
  { doc := p, creator := s.findUser p.creator, likes := p.likes.filterMap s.findUser }

def likersOf (p : PostWithLikes) : List Liker :=
  p.likes.map (fun like => { id := like._id, name := like.name })

/-- What is sent through `emit`: the topic and the action are in the
constructor name, the payload in the fields. -/
inductive Event where
  | postsCreate (post : Post) (creatorId : ObjectId) (creatorName : String)
  | postsDelete (post : ObjectId)
  | postsLike (post : PostWithLikes) (userId : ObjectId) (userLikes : List ObjectId)
  | postLike (likers : List Liker)
  | commentsCreate (comment : Comment)
  | commentsUpdate (comment : Comment)
  | commentsDelete (comment : ObjectId)
deriving DecidableEq, Repr

/-- How a handler ends: `res.status(c).json(body)`, `next(err)` from the `catch`
block, or an error thrown before the `try` block is entered. -/
inductive Reply (β : Type) where
  | sent (status : Nat) (body : β)
  | failed (statusCode : Nat)
  | rejected (statusCode : Nat)
deriving DecidableEq, Repr

/-- The status code of a reply. -/
def Reply.status {β : Type} : Reply β → Nat
  | Reply.sent c _ => c
  | Reply.failed c => c
  | Reply.rejected c => c

/-- The result of running a handler. -/
structure Outcome (β : Type) where
  store : Store
  events : List Event
  reply : Reply β
deriving DecidableEq, Repr

/-- The handler stops with an error: nothing is emitted. -/
def fail {β : Type} (s : Store) (statusCode : Nat) : Outcome β :=
  { store := s, events := [], reply := Reply.failed statusCode }

/-! ## The handlers of `controllers/feed.js` -/

/-- The JSON body of `getPosts`. -/
structure GetPostsBody where
  posts : List PostWithCreator
  totalItems : Nat
  likedPosts : List ObjectId
deriving DecidableEq, Repr

/-- Lines 12-34.  `ITEMS_PER_PAGE` comes from the environment of the process and is
a parameter; `page` is the value of `+req.query.page`. -/
def getPosts (ITEMS_PER_PAGE : Nat) (s : Store) (page : JSNum) (userId : ObjectId) :
    Outcome GetPostsBody :=
  let totalItems := s.posts.length
  match dbSkip (skipOf ITEMS_PER_PAGE page) (sortPosts s.posts) with
  | none => fail s 500
  | some skipped =>
    let posts := (dbLimit ITEMS_PER_PAGE skipped).map (populateCreator s)
    match s.findUser userId with
    | none => fail s 500
    | some user =>
      { store := s, events := [],
        reply := Reply.sent 200 { posts := posts, totalItems := totalItems, likedPosts := user.likes } }

/-- The expression `req.file.path.split("\\").join("/")`. -/
def normalizePath (path : String) : String :=
  path.map (fun c => if c = Char.ofNat 92 then Char.ofNat 47 else c)

/-- The JSON body of `createPost`. -/
structure CreatePostBody where
  post : Post
  creatorId : ObjectId
  creatorName : String
deriving DecidableEq, Repr

/-- Lines 36-77.  `valid` is `validationResult(req).isEmpty()`, `file` is the path of
`req.file` when a file was uploaded. -/
def createPost (s : Store) (valid : Bool) (file : Option String) (title content : String)
    (userId : ObjectId) (newId : ObjectId) (now : Nat) : Outcome CreatePostBody :=
  if !valid then { store := s, events := [], reply := Reply.rejected 422 }
  else
    match file with
    | none => { store := s, events := [], reply := Reply.rejected 422 }
    | some path =>
      let post : Post :=
        { _id := newId, title := title, content := content, imageUrl := normalizePath path,
          creator := userId, likes := [], comments := [], createdAt := now }
      match insertOne Post._id post s.posts with
      | none => fail s 500
      | some posts =>
        let s1 : Store := { s with posts := posts }
        match s1.findUser userId with
        | none => fail s1 500
        | some creator =>
          let s2 := s1.saveUser { creator with posts := push creator.posts post._id }
          { store := s2,
            events := [Event.postsCreate post creator._id creator.name],
            reply := Reply.sent 201
              { post := post, creatorId := creator._id, creatorName := creator.name } }

/-- The JSON body of `getPost`. -/
structure GetPostBody where
  post : PostWithLikes
  likers : List Liker
  comments : List Comment
deriving DecidableEq, Repr

/-- Lines 79-107. -/
def getPost (s : Store) (postId : Option ObjectId) (_userId : ObjectId) : Outcome GetPostBody :=
  match postId with
  | none => fail s 500
  | some pid =>
    match s.findPost pid with
    | none => fail s 404
    | some p =>
      let post := populateLikes s p
      let postComments := sortComments (s.comments.filter (fun c => c.post == pid))
      { store := s, events := [],
        reply := Reply.sent 200 { post := post, likers := likersOf post, comments := postComments } }

/-- Lines 157-184. -/
def deletePost (s : Store) (postId : Option ObjectId) (userId : ObjectId) : Outcome Unit :=
  match postId with
  | none => fail s 500
  | some pid =>
    match s.findPost pid with
    | none => fail s 404
    | some post =>
      if post.creator ≠ userId then fail s 403
      else
        let s1 : Store := { s with posts := findByIdAndRemove Post._id pid s.posts }
        match s1.findUser userId with
        | none => fail s1 500
        | some user =>
          let s2 := s1.saveUser { user with posts := pull user.posts pid }
          { store := s2, events := [Event.postsDelete pid], reply := Reply.sent 200 () }

/-- Lines 197-203 of `addLike`: the two in-memory documents after the branch on `flag`,
or `none` when `user` is `null` and `user.likes` raises. -/
def applyFlag (flag : Option String) (pid userId : ObjectId) (post : Post) (user : Option User) :
    Option (Post × Option User) :=
  if flag = some "like" then
    match user with
    | none => none
    | some u =>
      some ({ post with likes := push post.likes userId }, some { u with likes := push u.likes pid })
  else if flag = some "unlike" then
    match user with
    | none => none
    | some u =>
      some ({ post with likes := pull post.likes userId }, some { u with likes := pull u.likes pid })
  else some (post, user)

/-- Lines 186-226.  `flag` is `req.query.flag`, `none` when the query has none. -/
def addLike (s : Store) (postId : Option ObjectId) (flag : Option String) (userId : ObjectId) :
    Outcome Unit :=
  match postId with
  | none => fail s 500
  | some pid =>
    match s.findPost pid with
    | none => fail s 404
    | some post =>
      match applyFlag flag pid userId post (s.findUser userId) with
      | none => fail s 500
      | some (post1, user1) =>
        let s1 := s.savePost post1
        let result := populateLikes s1 post1
        match user1 with
        | none => fail s1 500
        | some userResult =>
          let s2 := s1.saveUser userResult
          { store := s2,
            events := [Event.postsLike result userId userResult.likes,
                       Event.postLike (likersOf result)],
            reply := Reply.sent 200 () }

/-- Lines 228-268.  The schema of `models/comment.js` makes `comment` and `post`
required: `comment.save()` is refused for an empty text and for a `postId` that is
not an ObjectId. -/
def addComment (s : Store) (valid : Bool) (postId : Option ObjectId) (newComment : String)
    (userId : ObjectId) (newId : ObjectId) (now : Nat) : Outcome Unit :=
  if !valid then { store := s, events := [], reply := Reply.rejected 422 }
  else
    match s.findUser userId with
    | none => fail s 500
    | some user =>
      let s1 := s.saveUser { user with comments := push user.comments newId }
      match postId with
      | none => fail s1 500
      | some pid =>
        let comment : Comment :=
          { _id := newId, comment := newComment, user := { id := userId, name := user.name },
            post := pid, createdAt := now, updatedAt := now }
        if newComment = "" then fail s1 500
        else
          match insertOne Comment._id comment s1.comments with
          | none => fail s1 500
          | some comments =>
            let s2 : Store := { s1 with comments := comments }
            match s2.findPost pid with
            | none => fail s2 500
            | some post =>
              let s3 := s2.savePost { post with comments := push post.comments newId }
              { store := s3, events := [Event.commentsCreate comment], reply := Reply.sent 201 () }

/-- Lines 270-304.  A save that changes nothing leaves `updatedAt` alone. -/
def editComment (s : Store) (valid : Bool) (commentId : Option ObjectId) (newComment : String)
    (userId : ObjectId) (now : Nat) : Outcome Comment :=
  if !valid then { store := s, events := [], reply := Reply.rejected 422 }
  else
    match commentId with
    | none => fail s 500
    | some cid =>
      match s.findComment cid with
      | none => fail s 404
      | some comment =>
        if comment.user.id ≠ userId then fail s 403
        else if newComment = "" then fail s 500
        else
          let result : Comment :=
            if newComment = comment.comment then comment
            else { comment with comment := newComment, updatedAt := now }
          { store := s.saveComment result, events := [Event.commentsUpdate result],
            reply := Reply.sent 200 result }

/-- Lines 306-335. -/
def removeComment (s : Store) (commentId : Option ObjectId) (userId : ObjectId) : Outcome Unit :=
  match commentId with
  | none => fail s 500
  | some cid =>
    match s.findComment cid with
    | none => fail s 404
    | some comment =>
      if comment.user.id ≠ userId then fail s 403
      else
        let s1 : Store := { s with comments := findByIdAndRemove Comment._id cid s.comments }
        match s1.findUser userId with
        | none => fail s1 500
        | some user =>
          let s2 := s1.saveUser { user with comments := pull user.comments cid }
          match s2.findPost comment.post with
          | none => fail s2 500
          | some post =>
            let s3 := s2.savePost { post with comments := pull post.comments cid }
            { store := s3, events := [Event.commentsDelete cid], reply := Reply.sent 200 () }

/-! ## Consistency predicates -/

/-- The likes of posts and of users are mirror images: for every post and every user of
the store (as `findById` returns them), the user id is among the likes of the post exactly
when the post id is among the likes of the user. -/
def Mirror (s : Store) : Prop :=
  ∀ p ∈ s.posts, ∀ u ∈ s.users, s.findPost p._id = some p → s.findUser u._id = some u →
    (u._id ∈ p.likes ↔ p._id ∈ u.likes)

instance (s : Store) : Decidable (Mirror s) := by
  unfold Mirror
  infer_instance

/-- Referential consistency of comments: the `post` of every stored comment is an existing
post whose `comments` list contains the id of the comment. -/
def CommentsConsistent (s : Store) : Prop :=
  ∀ c ∈ s.comments, (s.findPost c.post).map (fun p => decide (c._id ∈ p.comments)) = some true

instance (s : Store) : Decidable (CommentsConsistent s) := by
  unfold CommentsConsistent
  infer_instance

/-! ## Concrete stores used to evaluate the handlers -/

/-- A user with id 2 that owns and likes nothing. -/
def userB : User :=
  { _id := 2, name := "B", email := "b@example.org", password := "x", status := "I am new!!!",
    posts := [], likes := [], comments := [] }

/-- A user with id 3 that owns post 1. -/
def userA : User :=
  { _id := 3, name := "A", email := "a@example.org", password := "y", status := "I am new!!!",
    posts := [1], likes := [], comments := [] }

/-- A post with id 1 created by user 3, without likes and comments. -/
def postP : Post :=
  { _id := 1, title := "Hello", content := "First post", imageUrl := "images/p.png",
    creator := 3, likes := [], comments := [], createdAt := 10 }

/-- A store with the users 3 and 2 and the post 1 of user 3. -/
def store1 : Store := { users := [userA, userB], posts := [postP], comments := [] }

/-- Five posts of user 3, created at the times 10, 50, 30, 20 and 40. -/
def fivePosts : List Post :=
  [ { postP with _id := 1, createdAt := 10 }, { postP with _id := 2, createdAt := 50 },
    { postP with _id := 3, createdAt := 30 }, { postP with _id := 4, createdAt := 20 },
    { postP with _id := 5, createdAt := 40 } ]

/-- A store with the users 3 and 2 and five posts. -/
def store5 : Store := { users := [userA, userB], posts := fivePosts, comments := [] }

/-- A comment of user 2 on post 1. -/
def commentC : Comment :=
  { _id := 8, comment := "Nice", user := { id := 2, name := "B" }, post := 1,
    createdAt := 15, updatedAt := 15 }

/-- A store in which user 2 has commented on post 1 of user 3. -/
def store2 : Store :=
  { users := [userA, { userB with comments := [8] }],
    posts := [{ postP with comments := [8] }], comments := [commentC] }

/-- The store `store1` after user 2 has liked post 1. -/
def store3 : Store :=
  { users := [userA, { userB with likes := [1] }],
    posts := [{ postP with likes := [2] }], comments := [] }

/-! ## Lemmas on the collection primitives -/

theorem findById_cons_pos {α : Type} (key : α → ObjectId) (id : ObjectId) (x : α) (xs : List α)
    (h : key x = id) : findById key id (x :: xs) = some x := by
  unfold findById
  exact List.find?_cons_of_pos xs (by simp [h])

theorem findById_cons_neg {α : Type} (key : α → ObjectId) (id : ObjectId) (x : α) (xs : List α)
    (h : key x ≠ id) : findById key id (x :: xs) = findById key id xs := by
  unfold findById
  exact List.find?_cons_of_neg xs (by simp [h])

theorem findById_key {α : Type} (key : α → ObjectId) (id : ObjectId) (docs : List α) (d : α)
    (h : findById key id docs = some d) : key d = id := by
  unfold findById at h
  have := List.find?_some h
  simpa using this

theorem findById_mem {α : Type} (key : α → ObjectId) (id : ObjectId) (docs : List α) (d : α)
    (h : findById key id docs = some d) : d ∈ docs := by
  unfold findById at h
  exact List.mem_of_find?_eq_some h

theorem updateOne_self {α : Type} (key : α → ObjectId) (id : ObjectId) (docs : List α) (d : α)
    (h : findById key id docs = some d) : updateOne key d docs = docs := by
  have hk := findById_key key id docs d h
  induction docs with
  | nil => rfl
  | cons x xs ih =>
    by_cases hx : key x = id
    · rw [findById_cons_pos key id x xs hx] at h
      have hxd : x = d := Option.some.inj h
      subst hxd
      simp [updateOne]
    · rw [findById_cons_neg key id x xs hx] at h
      have hx2 : key x ≠ key d := by rw [hk]; exact hx
      simp [updateOne, hx2, ih h]

theorem findById_updateOne_ne {α : Type} (key : α → ObjectId) (id : ObjectId) (docs : List α)
    (d : α) (h : key d ≠ id) : findById key id (updateOne key d docs) = findById key id docs := by
  induction docs with
  | nil => rfl
  | cons x xs ih =>
    by_cases hx : key x = key d
    · have hx2 : key x ≠ id := by rw [hx]; exact h
      simp only [updateOne, hx, if_true]
      rw [findById_cons_neg key id d xs h, findById_cons_neg key id x xs hx2]
    · simp only [updateOne, hx, if_false]
      by_cases hx2 : key x = id
      · rw [findById_cons_pos key id x _ hx2, findById_cons_pos key id x _ hx2]
      · rw [findById_cons_neg key id x _ hx2, findById_cons_neg key id x _ hx2, ih]

theorem findById_updateOne_eq {α : Type} (key : α → ObjectId) (docs : List α) (d x : α)
    (h : findById key (key d) docs = some x) :
    findById key (key d) (updateOne key d docs) = some d := by
  induction docs with
  | nil => simp [findById] at h
  | cons y ys ih =>
    by_cases hy : key y = key d
    · simp only [updateOne, hy, if_true]
      exact findById_cons_pos key (key d) d ys rfl
    · simp only [updateOne, hy, if_false]
      rw [findById_cons_neg key (key d) y _ hy] at h ⊢
      exact ih h

theorem findById_remove_self {α : Type} (key : α → ObjectId) (id : ObjectId) (docs : List α) :
    findById key id (findByIdAndRemove key id docs) = none := by
  unfold findById findByIdAndRemove
  rw [List.find?_eq_none]
  intro x hx
  simp at hx
  simp [hx.2]

theorem findById_append_new {α : Type} (key : α → ObjectId) (docs : List α) (d : α)
    (h : findById key (key d) docs = none) : findById key (key d) (docs ++ [d]) = some d := by
  unfold findById at h ⊢
  simp [List.find?_append, h, List.find?]

theorem findById_append_ne {α : Type} (key : α → ObjectId) (id : ObjectId) (docs : List α) (d : α)
    (h : key d ≠ id) : findById key id (docs ++ [d]) = findById key id docs := by
  unfold findById
  have hd : List.find? (fun e => key e == id) [d] = none :=
    List.find?_cons_of_neg [] (by simp [h])
  rw [List.find?_append, hd]
  simp

theorem pull_push_of_not_mem (xs : List ObjectId) (x : ObjectId) (h : x ∉ xs) :
    pull (push xs x) x = xs := by
  unfold pull push
  rw [List.filter_append]
  have h1 : xs.filter (fun y => y != x) = xs := by
    rw [List.filter_eq_self]
    intro a ha
    have : a ≠ x := fun e => h (e ▸ ha)
    simp [this]
  simp [h1]

theorem pull_of_not_mem (xs : List ObjectId) (x : ObjectId) (h : x ∉ xs) : pull xs x = xs := by
  unfold pull
  rw [List.filter_eq_self]
  intro a ha
  have : a ≠ x := fun e => h (e ▸ ha)
  simp [this]

theorem mem_pull (xs : List ObjectId) (x y : ObjectId) : y ∈ pull xs x ↔ y ∈ xs ∧ y ≠ x := by
  unfold pull
  simp

theorem mem_push (xs : List ObjectId) (x y : ObjectId) : y ∈ push xs x ↔ y ∈ xs ∨ y = x := by
  unfold push
  simp

/-! ## Lemmas on the store -/

theorem Store.savePost_self (s : Store) (id : ObjectId) (p : Post) (h : s.findPost id = some p) :
    s.savePost p = s := by
  unfold Store.savePost
  rw [updateOne_self Post._id id s.posts p h]

theorem Store.saveUser_self (s : Store) (id : ObjectId) (u : User) (h : s.findUser id = some u) :
    s.saveUser u = s := by
  unfold Store.saveUser
  rw [updateOne_self User._id id s.users u h]

theorem Store.findUser_savePost (s : Store) (p : Post) (id : ObjectId) :
    (s.savePost p).findUser id = s.findUser id := rfl

theorem Store.findPost_saveUser (s : Store) (u : User) (id : ObjectId) :
    (s.saveUser u).findPost id = s.findPost id := rfl

theorem Store.findPost_savePost_eq (s : Store) (p x : Post) (h : s.findPost p._id = some x) :
    (s.savePost p).findPost p._id = some p :=
  findById_updateOne_eq Post._id s.posts p x h

theorem Store.findPost_savePost_ne (s : Store) (p : Post) (id : ObjectId) (h : p._id ≠ id) :
    (s.savePost p).findPost id = s.findPost id :=
  findById_updateOne_ne Post._id id s.posts p h

theorem Store.findUser_saveUser_eq (s : Store) (u x : User) (h : s.findUser u._id = some x) :
    (s.saveUser u).findUser u._id = some u :=
  findById_updateOne_eq User._id s.users u x h

theorem Store.findUser_saveUser_ne (s : Store) (u : User) (id : ObjectId) (h : u._id ≠ id) :
    (s.saveUser u).findUser id = s.findUser id :=
  findById_updateOne_ne User._id id s.users u h

theorem Store.findUser_saveUser_same (s : Store) (id : ObjectId) (u1 x : User)
    (h : s.findUser id = some x) (k : u1._id = id) : (s.saveUser u1).findUser id = some u1 := by
  subst k
  exact Store.findUser_saveUser_eq s u1 x h

theorem Store.findPost_savePost_same (s : Store) (id : ObjectId) (p1 x : Post)
    (h : s.findPost id = some x) (k : p1._id = id) : (s.savePost p1).findPost id = some p1 := by
  subst k
  exact Store.findPost_savePost_eq s p1 x h

/-- A like appends to both lists: the full outcome of `addLike` with `flag = "like"` on an
existing post and an existing user. -/
theorem addLike_like_eq (s : Store) (pid uid : ObjectId) (p : Post) (u : User)
    (hp : s.findPost pid = some p) (hu : s.findUser uid = some u) :
    addLike s (some pid) (some "like") uid =
      { store := (s.savePost { p with likes := push p.likes uid }).saveUser
          { u with likes := push u.likes pid },
        events :=
          [Event.postsLike
              (populateLikes (s.savePost { p with likes := push p.likes uid })
                { p with likes := push p.likes uid })
              uid (push u.likes pid),
            Event.postLike
              (likersOf (populateLikes (s.savePost { p with likes := push p.likes uid })
                { p with likes := push p.likes uid }))],
        reply := Reply.sent 200 () } := by
  simp [addLike, hp, hu, applyFlag]

/-- The full outcome of `addLike` with `flag = "unlike"` on an existing post and an existing
user. -/
theorem addLike_unlike_eq (s : Store) (pid uid : ObjectId) (p : Post) (u : User)
    (hp : s.findPost pid = some p) (hu : s.findUser uid = some u) :
    addLike s (some pid) (some "unlike") uid =
      { store := (s.savePost { p with likes := pull p.likes uid }).saveUser
          { u with likes := pull u.likes pid },
        events :=
          [Event.postsLike
              (populateLikes (s.savePost { p with likes := pull p.likes uid })
                { p with likes := pull p.likes uid })
              uid (pull u.likes pid),
            Event.postLike
              (likersOf (populateLikes (s.savePost { p with likes := pull p.likes uid })
                { p with likes := pull p.likes uid }))],
        reply := Reply.sent 200 () } := by
  simp [addLike, hp, hu, applyFlag]

/-- Saving a changed post and then the original one restores the collection. -/
theorem updateOne_updateOne {α : Type} (key : α → ObjectId) (id : ObjectId) (docs : List α)
    (d d1 : α) (h : findById key id docs = some d) (hk : key d1 = id) :
    updateOne key d (updateOne key d1 docs) = docs := by
  have hd := findById_key key id docs d h
  induction docs with
  | nil => rfl
  | cons x xs ih =>
    by_cases hx : key x = id
    · rw [findById_cons_pos key id x xs hx] at h
      have hxd : x = d := Option.some.inj h
      subst hxd
      simp [updateOne, hk, hx]
    · rw [findById_cons_neg key id x xs hx] at h
      have hx1 : key x ≠ key d1 := by rw [hk]; exact hx
      have hx2 : key x ≠ key d := by rw [hd]; exact hx
      simp [updateOne, hx1, hx2, ih h]

/-! ## Likes -/

/-- C4: an unlike by a user who is not among the likers of the post, and has not the post
among their likes, answers 200, emits the two like events and leaves the whole store (the
post, the user and every other document) as it was. -/
theorem addLike_unlike_without_like (s : Store) (pid uid : ObjectId) (p : Post) (u : User)
    (hp : s.findPost pid = some p) (hu : s.findUser uid = some u)
    (h1 : uid ∉ p.likes) (h2 : pid ∉ u.likes) :
    (addLike s (some pid) (some "unlike") uid).reply = Reply.sent 200 () ∧
    (addLike s (some pid) (some "unlike") uid).store = s ∧
    (addLike s (some pid) (some "unlike") uid).store.findPost pid = some p ∧
    (addLike s (some pid) (some "unlike") uid).store.findUser uid = some u := by
  have e1 : ({ p with likes := pull p.likes uid } : Post) = p := by
    rw [pull_of_not_mem p.likes uid h1]
  have e2 : ({ u with likes := pull u.likes pid } : User) = u := by
    rw [pull_of_not_mem u.likes pid h2]
  have hst : (addLike s (some pid) (some "unlike") uid).store = s := by
    rw [addLike_unlike_eq s pid uid p u hp hu]
    simp only [e1, e2]
    rw [Store.savePost_self s pid p hp, Store.saveUser_self s uid u hu]
  refine ⟨?_, hst, ?_, ?_⟩
  · rw [addLike_unlike_eq s pid uid p u hp hu]
  · rw [hst]; exact hp
  · rw [hst]; exact hu

/-- C1: like followed by unlike is a round trip.  For an existing post and an existing user
that do not list each other, both calls answer 200, the first event of the like is the
`posts` like event carrying the user id and a `userLikes` list containing the post id, and
after the unlike the likes of the post and of the user (indeed the whole store) are what
they were before the like. -/
theorem addLike_like_unlike_round_trip (s : Store) (pid uid : ObjectId) (p : Post) (u : User)
    (hp : s.findPost pid = some p) (hu : s.findUser uid = some u)
    (h1 : uid ∉ p.likes) (h2 : pid ∉ u.likes) :
    (addLike s (some pid) (some "like") uid).reply = Reply.sent 200 () ∧
    (∃ post userLikes,
      (addLike s (some pid) (some "like") uid).events.head? =
        some (Event.postsLike post uid userLikes) ∧ pid ∈ userLikes) ∧
    (addLike (addLike s (some pid) (some "like") uid).store (some pid) (some "unlike") uid).reply
      = Reply.sent 200 () ∧
    ((addLike (addLike s (some pid) (some "like") uid).store (some pid) (some "unlike")
      uid).store.findPost pid).map Post.likes = some p.likes ∧
    ((addLike (addLike s (some pid) (some "like") uid).store (some pid) (some "unlike")
      uid).store.findUser uid).map User.likes = some u.likes ∧
    (addLike (addLike s (some pid) (some "like") uid).store (some pid) (some "unlike")
      uid).store = s := by
  have kp : p._id = pid := findById_key Post._id pid s.posts p hp
  have ku : u._id = uid := findById_key User._id uid s.users u hu
  rw [addLike_like_eq s pid uid p u hp hu]
  have hp1 : ((s.savePost { p with likes := push p.likes uid }).saveUser
      { u with likes := push u.likes pid }).findPost pid
      = some { p with likes := push p.likes uid } := by
    rw [Store.findPost_saveUser]
    have := Store.findPost_savePost_eq s { p with likes := push p.likes uid } p
      (by simpa [kp] using hp)
    simpa [kp] using this
  have hu1 : ((s.savePost { p with likes := push p.likes uid }).saveUser
      { u with likes := push u.likes pid }).findUser uid
      = some { u with likes := push u.likes pid } := by
    have := Store.findUser_saveUser_eq (s.savePost { p with likes := push p.likes uid })
      { u with likes := push u.likes pid } u (by simpa [ku, Store.findUser_savePost] using hu)
    simpa [ku] using this
  have hstore : (addLike ((s.savePost { p with likes := push p.likes uid }).saveUser
      { u with likes := push u.likes pid }) (some pid) (some "unlike") uid).store = s := by
    rw [addLike_unlike_eq _ pid uid _ _ hp1 hu1]
    simp only [pull_push_of_not_mem p.likes uid h1, pull_push_of_not_mem u.likes pid h2]
    have e1 := updateOne_updateOne Post._id pid s.posts p
      { p with likes := push p.likes uid } hp kp
    have e2 := updateOne_updateOne User._id uid s.users u
      { u with likes := push u.likes pid } hu ku
    cases s
    simp only [Store.savePost, Store.saveUser, Store.mk.injEq]
    exact ⟨e2, e1, trivial⟩
  refine ⟨rfl, ⟨_, _, rfl, by simp [push]⟩, ?_, ?_, ?_, ?_⟩
  · rw [addLike_unlike_eq _ pid uid _ _ hp1 hu1]
  · simp only [hstore, hp, Option.map_some']
  · simp only [hstore, hu, Option.map_some']
  · exact hstore

theorem mirror_iff_lookup (s : Store) :
    Mirror s ↔ ∀ pid p uid u, s.findPost pid = some p → s.findUser uid = some u →
      (uid ∈ p.likes ↔ pid ∈ u.likes) := by
  constructor
  · intro h pid p uid u hp hu
    have kp := findById_key Post._id pid s.posts p hp
    have ku := findById_key User._id uid s.users u hu
    have := h p (findById_mem Post._id pid s.posts p hp) u (findById_mem User._id uid s.users u hu)
      (by rw [kp]; exact hp) (by rw [ku]; exact hu)
    rw [kp, ku] at this
    exact this
  · intro h p _ u _ hp hu
    exact h p._id p u._id u hp hu

/-- Saving a post and a user whose likes changed only at each other keeps the mirror. -/
theorem mirror_update (s : Store) (pid uid : ObjectId) (p p1 : Post) (u u1 : User) (b : Prop)
    (hp : s.findPost pid = some p) (hu : s.findUser uid = some u)
    (kp : p1._id = pid) (ku : u1._id = uid)
    (hpo : ∀ x, x ≠ uid → (x ∈ p1.likes ↔ x ∈ p.likes)) (hps : uid ∈ p1.likes ↔ b)
    (huo : ∀ y, y ≠ pid → (y ∈ u1.likes ↔ y ∈ u.likes)) (hus : pid ∈ u1.likes ↔ b)
    (h : Mirror s) : Mirror ((s.savePost p1).saveUser u1) := by
  rw [mirror_iff_lookup] at h ⊢
  intro pid2 q uid2 v hq hv
  rw [Store.findPost_saveUser] at hq
  have hq2 : (pid2 = pid ∧ q = p1) ∨ (pid2 ≠ pid ∧ s.findPost pid2 = some q) := by
    by_cases e : pid2 = pid
    · left
      subst e
      have := Store.findPost_savePost_eq s p1 p (by rw [kp]; exact hp)
      rw [kp] at this
      rw [this] at hq
      exact ⟨rfl, (Option.some.inj hq).symm⟩
    · right
      rw [Store.findPost_savePost_ne s p1 pid2 (by rw [kp]; exact fun e2 => e e2.symm)] at hq
      exact ⟨e, hq⟩
  have hv2 : (uid2 = uid ∧ v = u1) ∨ (uid2 ≠ uid ∧ s.findUser uid2 = some v) := by
    by_cases e : uid2 = uid
    · left
      subst e
      have := Store.findUser_saveUser_eq (s.savePost p1) u1 u
        (by rw [ku, Store.findUser_savePost]; exact hu)
      rw [ku] at this
      rw [this] at hv
      exact ⟨rfl, (Option.some.inj hv).symm⟩
    · right
      rw [Store.findUser_saveUser_ne (s.savePost p1) u1 uid2
        (by rw [ku]; exact fun e2 => e e2.symm), Store.findUser_savePost] at hv
      exact ⟨e, hv⟩
  rcases hq2 with ⟨e1, rfl⟩ | ⟨e1, hq3⟩ <;> rcases hv2 with ⟨e2, rfl⟩ | ⟨e2, hv3⟩
  · subst e1; subst e2
    rw [hps, hus]
  · subst e1
    rw [hpo uid2 e2]
    exact h _ p uid2 v hp hv3
  · subst e2
    rw [huo pid2 e1]
    exact h pid2 q _ u hq3 hu
  · exact h pid2 q uid2 v hq3 hv3

/-- C2: `addLike` keeps the likes of posts and of users mirror images, for every post
id (also one that names no post or is not an id at all), every user id, every flag, and
whether the call answers 200 or fails. -/
theorem addLike_preserves_mirror (s : Store) (postId : Option ObjectId) (flag : Option String)
    (userId : ObjectId) (h : Mirror s) : Mirror (addLike s postId flag userId).store := by
  cases postId with
  | none => exact h
  | some pid =>
    cases hp : s.findPost pid with
    | none => simpa [addLike, hp, fail] using h
    | some p =>
      have kp := findById_key Post._id pid s.posts p hp
      cases hu : s.findUser userId with
      | none =>
        by_cases f1 : flag = some "like"
        · simpa [addLike, hp, hu, applyFlag, f1, fail] using h
        · by_cases f2 : flag = some "unlike"
          · simpa [addLike, hp, hu, applyFlag, f1, f2, fail] using h
          · simpa [addLike, hp, hu, applyFlag, f1, f2, fail, Store.savePost_self s pid p hp]
              using h
      | some u =>
        have ku := findById_key User._id userId s.users u hu
        by_cases f1 : flag = some "like"
        · subst f1
          rw [addLike_like_eq s pid userId p u hp hu]
          refine mirror_update s pid userId p _ u _ True hp hu kp ku ?_ ?_ ?_ ?_ h
          · intro x hx; simp [mem_push, hx]
          · simp [mem_push]
          · intro y hy; simp [mem_push, hy]
          · simp [mem_push]
        · by_cases f2 : flag = some "unlike"
          · subst f2
            rw [addLike_unlike_eq s pid userId p u hp hu]
            refine mirror_update s pid userId p _ u _ False hp hu kp ku ?_ ?_ ?_ ?_ h
            · intro x hx; simp [mem_pull, hx]
            · simp [mem_pull]
            · intro y hy; simp [mem_pull, hy]
            · simp [mem_pull]
          · simpa [addLike, hp, hu, applyFlag, f1, f2, Store.savePost_self s pid p hp,
              Store.saveUser_self s userId u hu] using h

theorem find_after_saves (s : Store) (pid uid : ObjectId) (p p1 : Post) (u u1 : User)
    (hp : s.findPost pid = some p) (hu : s.findUser uid = some u)
    (kp : p1._id = pid) (ku : u1._id = uid) :
    ((s.savePost p1).saveUser u1).findPost pid = some p1 ∧
    ((s.savePost p1).saveUser u1).findUser uid = some u1 := by
  constructor
  · rw [Store.findPost_saveUser]
    have := Store.findPost_savePost_eq s p1 p (by rw [kp]; exact hp)
    rw [kp] at this
    exact this
  · have := Store.findUser_saveUser_eq (s.savePost p1) u1 u
      (by rw [ku, Store.findUser_savePost]; exact hu)
    rw [ku] at this
    exact this

/-- C3, as stated, fails: in `store1`, user 2 likes post 1 twice; the second call answers
200 and the likes of the post and of the user are not what they were after the first. -/
theorem addLike_twice_not_idempotent :
    ¬ ((addLike (addLike store1 (some 1) (some "like") 2).store (some 1) (some "like") 2).reply
          ≠ Reply.sent 200 () ∨
        ((addLike (addLike store1 (some 1) (some "like") 2).store (some 1) (some "like")
            2).store.findPost 1).map Post.likes
          = ((addLike store1 (some 1) (some "like") 2).store.findPost 1).map Post.likes ∧
        ((addLike (addLike store1 (some 1) (some "like") 2).store (some 1) (some "like")
            2).store.findUser 2).map User.likes
          = ((addLike store1 (some 1) (some "like") 2).store.findUser 2).map User.likes) := by
  decide

/-- C3, amended: two consecutive likes of an existing post by an existing user both answer
200, and each appends once more: afterwards the likes of the post are the original ones
followed by the user id twice, and the likes of the user the original ones followed by the
post id twice. -/
theorem addLike_twice_appends_twice (s : Store) (pid uid : ObjectId) (p : Post) (u : User)
    (hp : s.findPost pid = some p) (hu : s.findUser uid = some u) :
    (addLike s (some pid) (some "like") uid).reply = Reply.sent 200 () ∧
    (addLike (addLike s (some pid) (some "like") uid).store (some pid) (some "like") uid).reply
      = Reply.sent 200 () ∧
    ((addLike (addLike s (some pid) (some "like") uid).store (some pid) (some "like")
      uid).store.findPost pid).map Post.likes = some (p.likes ++ [uid, uid]) ∧
    ((addLike (addLike s (some pid) (some "like") uid).store (some pid) (some "like")
      uid).store.findUser uid).map User.likes = some (u.likes ++ [pid, pid]) := by
  have kp : p._id = pid := findById_key Post._id pid s.posts p hp
  have ku : u._id = uid := findById_key User._id uid s.users u hu
  rw [addLike_like_eq s pid uid p u hp hu]
  obtain ⟨hp1, hu1⟩ := find_after_saves s pid uid p { p with likes := push p.likes uid } u
    { u with likes := push u.likes pid } hp hu kp ku
  rw [addLike_like_eq _ pid uid _ _ hp1 hu1]
  obtain ⟨hp2, hu2⟩ := find_after_saves _ pid uid _
    { p with likes := push (push p.likes uid) uid } _
    { u with likes := push (push u.likes pid) pid } hp1 hu1 kp ku
  refine ⟨rfl, rfl, ?_, ?_⟩
  · rw [hp2]; simp [push]
  · rw [hu2]; simp [push]

/-! ## Posts -/

/-- C5: a valid `createPost` request with an image, from an existing user, answers 201; the
post stored under the new id has the user as creator and the title and content of the
request; the posts list of the user is the former list with the new id appended; every
other user document is untouched.  The new id is one that no stored post carries. -/
theorem createPost_records_ownership (s : Store) (path title content : String)
    (userId newId : ObjectId) (now : Nat) (u : User)
    (hu : s.findUser userId = some u) (hnew : s.findPost newId = none) :
    (createPost s true (some path) title content userId newId now).reply.status = 201 ∧
    (∃ post, (createPost s true (some path) title content userId newId now).store.findPost newId
        = some post ∧ post.creator = userId ∧ post.title = title ∧ post.content = content) ∧
    (createPost s true (some path) title content userId newId now).store.findUser userId
      = some { u with posts := u.posts ++ [newId] } ∧
    (∀ v, v ≠ userId →
      (createPost s true (some path) title content userId newId now).store.findUser v
        = s.findUser v) := by
  have ku : u._id = userId := findById_key User._id userId s.users u hu
  obtain ⟨post, hpost⟩ : ∃ post : Post, post = ⟨newId, title, content, normalizePath path,
    userId, [], [], now⟩ := ⟨_, rfl⟩
  have hins : insertOne Post._id post s.posts = some (s.posts ++ [post]) := by
    unfold insertOne
    have : findById Post._id post._id s.posts = none := by rw [hpost]; exact hnew
    simp [this]
  have hu1 : ({ s with posts := s.posts ++ [post] } : Store).findUser userId = some u := hu
  have hr : createPost s true (some path) title content userId newId now =
      { store := ({ s with posts := s.posts ++ [post] } : Store).saveUser
            { u with posts := push u.posts newId },
        events := [Event.postsCreate post u._id u.name],
        reply := Reply.sent 201 { post := post, creatorId := u._id, creatorName := u.name } } := by
    subst hpost
    simp [createPost, hins, hu1]
  rw [hr]
  refine ⟨rfl, ⟨post, ?_, ?_, ?_, ?_⟩, ?_, ?_⟩
  · rw [Store.findPost_saveUser]
    have := findById_append_new Post._id s.posts post (by rw [hpost]; exact hnew)
    rw [hpost] at this ⊢
    exact this
  · rw [hpost]
  · rw [hpost]
  · rw [hpost]
  · exact Store.findUser_saveUser_same _ userId { u with posts := push u.posts newId } u hu1 ku
  · intro v hv
    rw [Store.findUser_saveUser_ne _ _ v (by rw [ku]; exact fun e => hv e.symm)]
    rfl

/-- C6: `deletePost` by the owner (whose user document exists) answers 200, afterwards the
post id is not in the posts list of the owner and `getPost` on it fails with 404; on a
missing post `deletePost` fails with 404; for a user that is not the creator it fails
with 403, leaves the store as it was and emits nothing. -/
theorem deletePost_owner_and_errors (s : Store) (pid userId : ObjectId) :
    (∀ p u, s.findPost pid = some p → p.creator = userId → s.findUser userId = some u →
      (deletePost s (some pid) userId).reply = Reply.sent 200 () ∧
      (∃ u1, (deletePost s (some pid) userId).store.findUser userId = some u1 ∧
        pid ∉ u1.posts) ∧
      (deletePost s (some pid) userId).store.findPost pid = none ∧
      ∀ reader, (getPost (deletePost s (some pid) userId).store (some pid) reader).reply
        = Reply.failed 404) ∧
    (s.findPost pid = none → (deletePost s (some pid) userId).reply = Reply.failed 404) ∧
    (∀ p, s.findPost pid = some p → p.creator ≠ userId →
      (deletePost s (some pid) userId).reply = Reply.failed 403 ∧
      (deletePost s (some pid) userId).store = s ∧
      (deletePost s (some pid) userId).events = []) := by
  refine ⟨?_, ?_, ?_⟩
  · intro p u hp hc hu
    have ku : u._id = userId := findById_key User._id userId s.users u hu
    have hu1 : ({ s with posts := findByIdAndRemove Post._id pid s.posts } : Store).findUser
        userId = some u := hu
    have hr : deletePost s (some pid) userId =
        { store := ({ s with posts := findByIdAndRemove Post._id pid s.posts } : Store).saveUser
            { u with posts := pull u.posts pid },
          events := [Event.postsDelete pid], reply := Reply.sent 200 () } := by
      simp [deletePost, hp, hc, hu1]
    rw [hr]
    have hgone : (({ s with posts := findByIdAndRemove Post._id pid s.posts } : Store).saveUser
        { u with posts := pull u.posts pid }).findPost pid = none := by
      rw [Store.findPost_saveUser]
      exact findById_remove_self Post._id pid s.posts
    refine ⟨rfl, ⟨{ u with posts := pull u.posts pid }, ?_, ?_⟩, hgone, ?_⟩
    · exact Store.findUser_saveUser_same _ userId { u with posts := pull u.posts pid } u hu1 ku
    · simp [mem_pull]
    · intro reader
      simp [getPost, hgone, fail]
  · intro hp
    simp [deletePost, hp, fail]
  · intro p hp hc
    simp [deletePost, hp, hc, fail]

/-! ## Comments -/

/-- C7: for an existing comment and a user that is not its author, `editComment` (with
text that passed validation) and `removeComment` both fail with 403, leave the store as it
was and emit no event. -/
theorem comment_change_by_non_author (s : Store) (cid userId : ObjectId) (c : Comment)
    (text : String) (now : Nat)
    (hc : s.findComment cid = some c) (hne : userId ≠ c.user.id) :
    (editComment s true (some cid) text userId now).reply = Reply.failed 403 ∧
    (editComment s true (some cid) text userId now).store = s ∧
    (editComment s true (some cid) text userId now).events = [] ∧
    (removeComment s (some cid) userId).reply = Reply.failed 403 ∧
    (removeComment s (some cid) userId).store = s ∧
    (removeComment s (some cid) userId).events = [] := by
  have hne2 : c.user.id ≠ userId := fun e => hne e.symm
  simp [editComment, removeComment, hc, hne2, fail]

/-! ## Listing -/

theorem roundDouble_of_isDouble (q : ℚ) (h : isDouble q) : roundDouble q = JSNum.num q :=
  if_pos h

/-- An integer of magnitude below `2 ^ 53` is a double. -/
theorem isDouble_intCast (z : ℤ) (h : z.natAbs < 2 ^ 53) : isDouble (z : ℚ) := by
  unfold isDouble
  rw [Rat.intCast_den, Rat.intCast_num]
  exact ⟨Nat.mod_one _, Or.inl h, lt_trans h (by norm_num)⟩

theorem roundDouble_intCast (z : ℤ) (h : z.natAbs < 2 ^ 53) :
    roundDouble (z : ℚ) = JSNum.num z :=
  roundDouble_of_isDouble _ (isDouble_intCast z h)

theorem roundDouble_natCast (n : Nat) (h : n < 2 ^ 53) : roundDouble (n : ℚ) = JSNum.num n := by
  have := roundDouble_intCast (n : ℤ) (by simpa using h)
  simpa using this

/-- Below `2 ^ 53` line 19 is exact. -/
theorem skipOf_natCast (ipp page : Nat) (hpage : 1 ≤ page) (hp : page < 2 ^ 53)
    (hi : ipp < 2 ^ 53) (hk : (page - 1) * ipp < 2 ^ 53) :
    skipOf ipp (JSNum.num page) = JSNum.num (((page - 1) * ipp : Nat) : ℚ) := by
  have h0 : (page : ℚ) ≠ 0 := by
    have : page ≠ 0 := by omega
    exact_mod_cast this
  have e1 : (page : ℚ) - 1 = ((page - 1 : Nat) : ℚ) := by
    push_cast [Nat.cast_sub hpage]
    ring
  have e2 : ((page - 1 : Nat) : ℚ) * (ipp : ℚ) = (((page - 1) * ipp : Nat) : ℚ) := by
    push_cast
    ring
  simp only [skipOf, currentPage, JSNum.or, JSNum.truthy, bne_iff_ne, ne_eq, h0, not_false_eq_true,
    decide_True, if_true, JSNum.sub]
  rw [e1, roundDouble_natCast (page - 1) (by omega), roundDouble_natCast ipp hi]
  simp only [JSNum.mul]
  rw [e2, roundDouble_natCast _ hk]

theorem dbSkip_natCast {α : Type} (n : Nat) (docs : List α) :
    dbSkip (JSNum.num (n : ℚ)) docs = some (docs.drop n) := by
  simp [dbSkip]

theorem getPosts_eq (ipp page : Nat) (s : Store) (userId : ObjectId) (u : User)
    (hpage : 1 ≤ page) (hs : 1 ≤ ipp) (hp : page < 2 ^ 53) (hi : ipp < 2 ^ 53)
    (hk : (page - 1) * ipp < 2 ^ 53) (hu : s.findUser userId = some u) :
    getPosts ipp s (JSNum.num page) userId =
      { store := s, events := [],
        reply := Reply.sent 200
          { posts := (((sortPosts s.posts).drop ((page - 1) * ipp)).take ipp).map
              (populateCreator s),
            totalItems := s.posts.length, likedPosts := u.likes } } := by
  have h0 : ipp ≠ 0 := by omega
  unfold getPosts
  rw [skipOf_natCast ipp page hpage hp hi hk, dbSkip_natCast]
  simp [hu, dbLimit, h0]

/-- C8: `getPosts` answers 200 with the requested window of the newest-first ordering.
The ordering `sortPosts` is a rearrangement of the stored posts in which `createdAt` never
increases; for a page number `page ≥ 1`, a page size `ITEMS_PER_PAGE ≥ 1` and a requesting
user that exists, the posts returned are that ordering with the first
`(page - 1) * ITEMS_PER_PAGE` dropped and at most `ITEMS_PER_PAGE` kept, `totalItems` is
the number of stored posts and `likedPosts` the likes of the user.  This is stated where the
numbers of line 19 are exact: page number, page size and skip below `2 ^ 53`.  With five
posts, page 2 and page size 2 the posts returned are the third and the fourth of the
ordering and `totalItems` is 5. -/
theorem getPosts_window (s : Store) (userId : ObjectId) (u : User)
    (hu : s.findUser userId = some u) :
    List.Sorted (fun a b => b.createdAt ≤ a.createdAt) (sortPosts s.posts) ∧
    List.Perm (sortPosts s.posts) s.posts ∧
    (∀ ipp page : Nat, 1 ≤ page → 1 ≤ ipp →
      page < 2 ^ 53 → ipp < 2 ^ 53 → (page - 1) * ipp < 2 ^ 53 →
      ∃ body, (getPosts ipp s (JSNum.num page) userId).reply = Reply.sent 200 body ∧
        body.posts.map PostWithCreator.doc
          = ((sortPosts s.posts).drop ((page - 1) * ipp)).take ipp ∧
        body.posts.length ≤ ipp ∧
        body.totalItems = s.posts.length ∧
        body.likedPosts = u.likes) ∧
    (s.posts.length = 5 →
      ∃ p1 p2 p3 p4 p5 body, sortPosts s.posts = [p1, p2, p3, p4, p5] ∧
        (getPosts 2 s (JSNum.num 2) userId).reply = Reply.sent 200 body ∧
        body.posts.map PostWithCreator.doc = [p3, p4] ∧
        body.totalItems = 5) := by
  haveI : IsTotal Post (fun a b => b.createdAt ≤ a.createdAt) :=
    ⟨fun a b => Nat.le_total b.createdAt a.createdAt⟩
  haveI : IsTrans Post (fun a b => b.createdAt ≤ a.createdAt) :=
    ⟨fun a b c hab hbc => Nat.le_trans hbc hab⟩
  have hperm : List.Perm (sortPosts s.posts) s.posts := List.perm_insertionSort _ _
  have hdoc : ∀ l : List Post, (l.map (populateCreator s)).map PostWithCreator.doc = l := by
    intro l
    rw [List.map_map]
    exact List.map_id _
  refine ⟨List.sorted_insertionSort _ _, hperm, ?_, ?_⟩
  · intro ipp page hpage hs hp hi hk
    refine ⟨_, by rw [getPosts_eq ipp page s userId u hpage hs hp hi hk hu], hdoc _, ?_, rfl,
      rfl⟩
    simp only [List.length_map, List.length_take]
    exact Nat.min_le_left _ _
  · intro h5
    have hlen : (sortPosts s.posts).length = 5 := by rw [hperm.length_eq, h5]
    match hsort : sortPosts s.posts, hlen with
    | [p1, p2, p3, p4, p5], _ =>
      have hg := getPosts_eq 2 2 s userId u (by decide) (by decide) (by norm_num)
        (by norm_num) (by norm_num) hu
      rw [hsort] at hg
      refine ⟨p1, p2, p3, p4, p5,
        { posts := [populateCreator s p3, populateCreator s p4],
          totalItems := s.posts.length, likedPosts := u.likes }, rfl, ?_, rfl, h5⟩
      have h2 : ((2 : Nat) : ℚ) = 2 := by norm_num
      rw [← h2, hg]
      rfl

/-- C9, evaluated: `NaN` and 0 are replaced by page 1, but a negative or fractional page
number is kept as the current page.  For `page = -3` with page size 2 the current page is -3
and the skip is -8, and `getPosts` fails with 500; for `page = 3/2` with page size 3 the
current page is 3/2 and the skip is 3/2. -/
theorem getPosts_page_not_positive_integer :
    currentPage JSNum.nan = JSNum.num 1 ∧
    currentPage (JSNum.num 0) = JSNum.num 1 ∧
    currentPage (JSNum.num (-3)) = JSNum.num (-3) ∧
    skipOf 2 (JSNum.num (-3)) = JSNum.num (-8) ∧
    (getPosts 2 store5 (JSNum.num (-3)) 2).reply = Reply.failed 500 ∧
    currentPage (JSNum.num (3 / 2)) = JSNum.num (3 / 2) ∧
    skipOf 3 (JSNum.num (3 / 2)) = JSNum.num (3 / 2) := by
  have r2 : roundDouble ((2 : Nat) : ℚ) = JSNum.num 2 := by
    have := roundDouble_natCast 2 (by norm_num)
    simpa using this
  have r3 : roundDouble ((3 : Nat) : ℚ) = JSNum.num 3 := by
    have := roundDouble_natCast 3 (by norm_num)
    simpa using this
  have r4 : roundDouble (-3 - 1) = JSNum.num (-4) := by
    have := roundDouble_intCast (-4) (by norm_num)
    norm_num at this ⊢
    exact this
  have r8 : roundDouble (-4 * 2) = JSNum.num (-8) := by
    have := roundDouble_intCast (-8) (by norm_num)
    norm_num at this ⊢
    exact this
  have rh : roundDouble (3 / 2 - 1) = JSNum.num (1 / 2) := by
    have e : (3 / 2 - 1 : ℚ) = 1 / 2 := by norm_num
    rw [e]
    refine roundDouble_of_isDouble _ ?_
    unfold isDouble
    norm_num
  have rt : roundDouble (1 / 2 * 3) = JSNum.num (3 / 2) := by
    have e : (1 / 2 * 3 : ℚ) = 3 / 2 := by norm_num
    rw [e]
    refine roundDouble_of_isDouble _ ?_
    unfold isDouble
    norm_num
  have c3 : currentPage (JSNum.num (-3)) = JSNum.num (-3) := by
    norm_num [currentPage, JSNum.or, JSNum.truthy]
  have ch : currentPage (JSNum.num (3 / 2)) = JSNum.num (3 / 2) := by
    norm_num [currentPage, JSNum.or, JSNum.truthy]
  have h1 : skipOf 2 (JSNum.num (-3)) = JSNum.num (-8) := by
    unfold skipOf
    rw [c3, r2]
    simp only [JSNum.sub, JSNum.mul, r4, r8]
  refine ⟨?_, ?_, c3, h1, ?_, ch, ?_⟩
  · simp [currentPage, JSNum.or, JSNum.truthy]
  · simp [currentPage, JSNum.or, JSNum.truthy]
  · unfold getPosts
    rw [h1]
    norm_num [dbSkip, fail]
  · unfold skipOf
    rw [ch, r3]
    simp only [JSNum.sub, JSNum.mul, rh, rt]

/-- C10, evaluated: in `store1`, where the comments are consistent, user 2 comments on post 7,
which does not exist.  `addComment` fails with 500 and emits nothing, yet afterwards comment 9
is stored with `post = 7`, its id is in the comments of user 2, no post 7 exists, and the
comments are not consistent any more. -/
theorem addComment_missing_post_leaves_orphan :
    CommentsConsistent store1 ∧
    store1.findUser 2 = some userB ∧
    store1.findPost 7 = none ∧
    (addComment store1 true (some 7) "Nice" 2 9 20).reply = Reply.failed 500 ∧
    (addComment store1 true (some 7) "Nice" 2 9 20).events = [] ∧
    (addComment store1 true (some 7) "Nice" 2 9 20).store.findComment 9 =
      some { _id := 9, comment := "Nice", user := { id := 2, name := "B" }, post := 7,
             createdAt := 20, updatedAt := 20 } ∧
    ((addComment store1 true (some 7) "Nice" 2 9 20).store.findUser 2).map User.comments
      = some [9] ∧
    (addComment store1 true (some 7) "Nice" 2 9 20).store.findPost 7 = none ∧
    ¬ CommentsConsistent (addComment store1 true (some 7) "Nice" 2 9 20).store := by
  decide

/-- On an existing post `addComment` does keep the comments consistent: with an existing
user, a non-empty text and a new id that no stored comment carries, it answers 201, stores
the comment with the request's post id, the user id and the current name of the user, and
appends its id to the comments of the user and of the post. -/
theorem addComment_existing_post (s : Store) (pid userId newId : ObjectId) (text : String)
    (now : Nat) (u : User) (p : Post)
    (hu : s.findUser userId = some u) (hp : s.findPost pid = some p) (htext : text ≠ "")
    (hnew : s.findComment newId = none) (hinv : CommentsConsistent s) :
    (addComment s true (some pid) text userId newId now).reply = Reply.sent 201 () ∧
    (addComment s true (some pid) text userId newId now).store.findComment newId
      = some ⟨newId, text, ⟨userId, u.name⟩, pid, now, now⟩ ∧
    (addComment s true (some pid) text userId newId now).store.findUser userId
      = some { u with comments := u.comments ++ [newId] } ∧
    (addComment s true (some pid) text userId newId now).store.findPost pid
      = some { p with comments := p.comments ++ [newId] } ∧
    CommentsConsistent (addComment s true (some pid) text userId newId now).store := by
  have ku : u._id = userId := findById_key User._id userId s.users u hu
  have kp : p._id = pid := findById_key Post._id pid s.posts p hp
  obtain ⟨c, hc⟩ : ∃ c : Comment, c = ⟨newId, text, ⟨userId, u.name⟩, pid, now, now⟩ := ⟨_, rfl⟩
  have hins : insertOne Comment._id c (s.saveUser { u with comments := push u.comments newId }).comments
      = some (s.comments ++ [c]) := by
    unfold insertOne
    have : findById Comment._id c._id s.comments = none := by rw [hc]; exact hnew
    simp [Store.saveUser, this]
  have hr : addComment s true (some pid) text userId newId now =
      { store := ({ (s.saveUser { u with comments := push u.comments newId }) with
            comments := s.comments ++ [c] } : Store).savePost
            { p with comments := push p.comments newId },
        events := [Event.commentsCreate c], reply := Reply.sent 201 () } := by
    have hp2 : ({ (s.saveUser { u with comments := push u.comments newId }) with
        comments := s.comments ++ [c] } : Store).findPost pid = some p := hp
    subst hc
    simp [addComment, hu, htext, hins, hp2]
  rw [hr]
  have hpost : ∀ x, (({ (s.saveUser { u with comments := push u.comments newId }) with
        comments := s.comments ++ [c] } : Store).savePost
        { p with comments := push p.comments newId }).findPost x
      = if x = pid then some { p with comments := push p.comments newId } else s.findPost x := by
    intro x
    by_cases hx : x = pid
    · subst hx
      rw [if_pos rfl]
      exact Store.findPost_savePost_same _ x _ p hp kp
    · rw [if_neg hx]
      rw [Store.findPost_savePost_ne _ _ x (by rw [kp]; exact fun e => hx e.symm)]
      rfl
  refine ⟨rfl, ?_, ?_, ?_, ?_⟩
  · have := findById_append_new Comment._id s.comments c (by rw [hc]; exact hnew)
    rw [hc] at this ⊢
    exact this
  · exact Store.findUser_saveUser_same s userId { u with comments := push u.comments newId } u
      hu ku
  · have := hpost pid
    rw [if_pos rfl] at this
    exact this
  · intro d hd
    have hd2 : d ∈ s.comments ++ [c] := hd
    rw [hpost d.post]
    rcases List.mem_append.mp hd2 with h1 | h1
    · have h2 := hinv d h1
      by_cases hx : d.post = pid
      · rw [if_pos hx]
        rw [hx, hp] at h2
        simp only [Option.map_some', Option.some.injEq, decide_eq_true_eq] at h2 ⊢
        simp [push, h2]
      · rw [if_neg hx]
        exact h2
    · have hdc : d = c := by simpa using h1
      rw [hdc, hc]
      simp [push]

/-! ## The theorems at concrete requests -/

theorem addLike_like_unlike_round_trip_witness :
    store1.findPost 1 = some postP ∧ store1.findUser 2 = some userB ∧
    (addLike store1 (some 1) (some "like") 2).reply = Reply.sent 200 () ∧
    (addLike (addLike store1 (some 1) (some "like") 2).store (some 1) (some "unlike") 2).store
      = store1 :=
  ⟨by decide, by decide,
    (addLike_like_unlike_round_trip store1 1 2 postP userB (by decide) (by decide) (by decide)
      (by decide)).1,
    (addLike_like_unlike_round_trip store1 1 2 postP userB (by decide) (by decide) (by decide)
      (by decide)).2.2.2.2.2⟩

theorem addLike_preserves_mirror_witness :
    Mirror store3 ∧ Mirror (addLike store3 (some 1) (some "unlike") 2).store ∧
    Mirror (addLike store3 (some 1) (some "like") 3).store :=
  ⟨by decide, addLike_preserves_mirror store3 (some 1) (some "unlike") 2 (by decide),
    addLike_preserves_mirror store3 (some 1) (some "like") 3 (by decide)⟩

theorem addLike_twice_appends_twice_witness :
    ((addLike (addLike store1 (some 1) (some "like") 2).store (some 1) (some "like")
      2).store.findPost 1).map Post.likes = some (postP.likes ++ [2, 2]) ∧
    ((addLike (addLike store1 (some 1) (some "like") 2).store (some 1) (some "like")
      2).store.findUser 2).map User.likes = some (userB.likes ++ [1, 1]) :=
  (addLike_twice_appends_twice store1 1 2 postP userB (by decide) (by decide)).2.2

theorem addLike_unlike_without_like_witness :
    2 ∉ postP.likes ∧ 1 ∉ userB.likes ∧
    (addLike store1 (some 1) (some "unlike") 2).reply = Reply.sent 200 () ∧
    (addLike store1 (some 1) (some "unlike") 2).store = store1 :=
  ⟨by decide, by decide,
    (addLike_unlike_without_like store1 1 2 postP userB (by decide) (by decide) (by decide)
      (by decide)).1,
    (addLike_unlike_without_like store1 1 2 postP userB (by decide) (by decide) (by decide)
      (by decide)).2.1⟩

theorem createPost_records_ownership_witness :
    (createPost store1 true (some "images/q.png") "Second" "More text" 2 4 30).reply.status = 201 ∧
    (createPost store1 true (some "images/q.png") "Second" "More text" 2 4 30).store.findUser 2
      = some { userB with posts := userB.posts ++ [4] } :=
  ⟨(createPost_records_ownership store1 "images/q.png" "Second" "More text" 2 4 30 userB
      (by decide) (by decide)).1,
    (createPost_records_ownership store1 "images/q.png" "Second" "More text" 2 4 30 userB
      (by decide) (by decide)).2.2.1⟩

theorem deletePost_owner_and_errors_witness :
    ((deletePost store1 (some 1) 3).reply = Reply.sent 200 () ∧
      (deletePost store1 (some 1) 3).store.findPost 1 = none ∧
      (getPost (deletePost store1 (some 1) 3).store (some 1) 2).reply = Reply.failed 404) ∧
    (deletePost store1 (some 5) 3).reply = Reply.failed 404 ∧
    ((deletePost store1 (some 1) 2).reply = Reply.failed 403 ∧
      (deletePost store1 (some 1) 2).store = store1) :=
  ⟨⟨((deletePost_owner_and_errors store1 1 3).1 postP userA (by decide) (by decide)
        (by decide)).1,
      ((deletePost_owner_and_errors store1 1 3).1 postP userA (by decide) (by decide)
        (by decide)).2.2.1,
      ((deletePost_owner_and_errors store1 1 3).1 postP userA (by decide) (by decide)
        (by decide)).2.2.2 2⟩,
    (deletePost_owner_and_errors store1 5 3).2.1 (by decide),
    ⟨((deletePost_owner_and_errors store1 1 2).2.2 postP (by decide) (by decide)).1,
      ((deletePost_owner_and_errors store1 1 2).2.2 postP (by decide) (by decide)).2.1⟩⟩

theorem comment_change_by_non_author_witness :
    store2.findComment 8 = some commentC ∧ 3 ≠ commentC.user.id ∧
    (editComment store2 true (some 8) "Edited" 3 40).reply = Reply.failed 403 ∧
    (editComment store2 true (some 8) "Edited" 3 40).store = store2 ∧
    (editComment store2 true (some 8) "Edited" 3 40).events = [] ∧
    (removeComment store2 (some 8) 3).reply = Reply.failed 403 ∧
    (removeComment store2 (some 8) 3).store = store2 ∧
    (removeComment store2 (some 8) 3).events = [] :=
  ⟨by decide, by decide,
    comment_change_by_non_author store2 8 3 commentC "Edited" 40 (by decide) (by decide)⟩

theorem getPosts_window_witness :
    store5.findUser 2 = some userB ∧
    (∃ body, (getPosts 2 store5 (JSNum.num ((2 : Nat) : ℚ)) 2).reply = Reply.sent 200 body ∧
      body.posts.map PostWithCreator.doc
        = ((sortPosts store5.posts).drop ((2 - 1) * 2)).take 2 ∧
      body.posts.length ≤ 2 ∧
      body.totalItems = store5.posts.length ∧
      body.likedPosts = userB.likes) ∧
    (∃ p1 p2 p3 p4 p5 body, sortPosts store5.posts = [p1, p2, p3, p4, p5] ∧
      (getPosts 2 store5 (JSNum.num 2) 2).reply = Reply.sent 200 body ∧
      body.posts.map PostWithCreator.doc = [p3, p4] ∧
      body.totalItems = 5) :=
  ⟨by decide,
    (getPosts_window store5 2 userB (by decide)).2.2.1 2 2 (by decide) (by decide) (by norm_num)
      (by norm_num) (by norm_num),
    (getPosts_window store5 2 userB (by decide)).2.2.2 (by decide)⟩

end Feed
